import Mathlib

/-!
Shallow embedding of src/src/app.py (titanic-api application bootstrap).

The file models:
  - the JSON bodies and HTTP responses the three route handlers produce;
  - the view functions index, health_check and api_index;
  - the application factory create_app, including its observable effect
    trace (application creation, configuration, database initialization,
    blueprint registration, route registration) and its failure modes
    (configuration-registry lookup failure, database-init failure);
  - Flask/Werkzeug URL dispatch for the resulting route table.  Werkzeug
    keeps rules whose match keys are equal in registration order (the rule
    list is sorted with a stable sort) and MapAdapter.match returns the
    first rule that matches the path and method, so of two identical
    static rules the first-registered one receives the request.

External collaborators (the configuration registry app_config, the db
handle, the people blueprint) are parameters of create_app: the registry
is an association list, a database failure is an Except value carrying
str(e), the blueprint is the list of rules it contributes.
-/

namespace TitanicApi

/-- Configuration objects are opaque here: only their identity matters. -/
abbrev Config := String

/-- HTTP methods (only GET is used by the embedded routes). -/
inductive Method
  | GET
  | POST
  | PUT
  | DELETE
  deriving DecidableEq, Repr

/-- View-function endpoints registered by create_app, plus endpoints
contributed by the external people blueprint. -/
inductive Endpoint
  | index
  | health_check
  | api_index
  | blueprintEp (name : String)
  deriving DecidableEq, Repr

/-- A URL rule of the Werkzeug map: static path, allowed methods, endpoint. -/
structure Rule where
  path : String
  methods : List Method
  endpoint : Endpoint
  deriving DecidableEq, Repr

/-- JSON values, as produced by the dict literals of app.py. -/
inductive Json
  | str (s : String)
  | obj (fields : List (String × Json))

/-- Response bodies: a plain string return or a JSON (dict) return. -/
inductive Body
  | text (s : String)
  | json (j : Json)

/-- An HTTP response: body plus status code. -/
structure Response where
  body : Body
  status : Nat

/-- Reads a field of a JSON-object response body as a string. -/
def Response.fieldStr (r : Response) (k : String) : Option String :=
  match r.body with
  | Body.json (Json.obj fields) =>
      match List.lookup k fields with
      | some (Json.str s) => some s
      | _ => none
  | _ => none

/-- True when the response body is a JSON object. -/
def Response.isJsonBody (r : Response) : Bool :=
  match r.body with
  | Body.json _ => true
  | Body.text _ => false

/-- The Flask application object assembled by create_app. -/
structure FlaskApp where
  config : Option Config
  dbInitDone : Bool
  routes : List Rule
  deriving DecidableEq, Repr

/-- State of the database collaborator: the stored rows and the log of SQL
statements the session has executed. -/
structure DbState where
  rows : List String
  queryLog : List String
  deriving DecidableEq, Repr

/-- View function index (app.py lines 23-33): returns the triple-quoted
plain welcome string; Flask gives a bare string return status 200. -/
def index : Response :=
  { body := Body.text "\n        Welcome to the Titanic API\n        "
    status := 200 }

/-- View function api_index (app.py lines 57-69): the structured JSON
root payload with message, version and endpoints map, status 200. -/
def api_index : Response :=
  { body := Body.json (Json.obj
      [("message", Json.str "Welcome to Titanic API"),
       ("version", Json.str "1.0.0"),
       ("endpoints", Json.obj
          [("health", Json.str "/health"),
           ("passengers", Json.str "/api/v1/passengers")])])
    status := 200 }

/-- View function health_check (app.py lines 35-54).  The probe argument
is the outcome of db.session.execute applied to the SELECT 1 statement: ok
on success, or error carrying str(e) when the call raises e.  The handler
issues the probe exactly once (the query log grows by one entry on both
branches), touches nothing else, and returns the healthy payload with 200
or the unhealthy payload with 503. -/
def health_check (probe : Except String Unit) (app : FlaskApp) (st : DbState) :
    Response × FlaskApp × DbState :=
  let st1 : DbState := { st with queryLog := st.queryLog ++ ["SELECT 1"] }
  match probe with
  | Except.ok _ =>
      ({ body := Body.json (Json.obj
           [("status", Json.str "healthy"),
            ("database", Json.str "connected"),
            ("service", Json.str "titanic-api")])
         status := 200 }, app, st1)
  | Except.error e =>
      ({ body := Body.json (Json.obj
           [("status", Json.str "unhealthy"),
            ("database", Json.str "disconnected"),
            ("error", Json.str e)])
         status := 503 }, app, st1)

/-- Errors create_app can propagate: the registry lookup failure raised by
app_config[env_name] (a Python KeyError), or a database-init failure. -/
inductive BootError
  | keyError (k : String)
  | dbInitError (msg : String)
  deriving DecidableEq, Repr

/-- Dictionary lookup app_config[env_name] on the configuration registry. -/
def lookupConfig : List (String × Config) → String → Option Config
  | [], _ => none
  | (k, v) :: rest, name => if k = name then some v else lookupConfig rest name

/-- Observable bootstrap effects of create_app, in the order performed. -/
inductive Event
  | createApp
  | applyConfig (cfg : Config)
  | initDb
  | registerBlueprint
  | addRoute (endpointName : String)
  deriving DecidableEq, Repr

/-- The rule registered for index at app.py line 23. -/
def indexRule : Rule :=
  { path := "/", methods := [Method.GET], endpoint := Endpoint.index }

/-- The rule registered for health_check at app.py line 35. -/
def healthRule : Rule :=
  { path := "/health", methods := [Method.GET], endpoint := Endpoint.health_check }

/-- The rule registered for api_index at app.py line 57. -/
def apiIndexRule : Rule :=
  { path := "/", methods := [Method.GET], endpoint := Endpoint.api_index }

/-- The application factory create_app (app.py lines 7-70).  Parameters
stand for the external collaborators: registry is the app_config mapping,
dbInit is the outcome of db.init_app, people is the list of rules the
people blueprint contributes (mounted before the local routes).  The
result pairs the trace of observable effects with either the assembled
application or the error that propagated. -/
def create_app (registry : List (String × Config)) (dbInit : Except String Unit)
    (people : List Rule) (env_name : String) :
    List Event × Except BootError FlaskApp :=
  match lookupConfig registry env_name with
  | none => ([Event.createApp], Except.error (BootError.keyError env_name))
  | some cfg =>
      match dbInit with
      | Except.error m =>
          ([Event.createApp, Event.applyConfig cfg],
           Except.error (BootError.dbInitError m))
      | Except.ok _ =>
          ([Event.createApp, Event.applyConfig cfg, Event.initDb,
            Event.registerBlueprint, Event.addRoute "index",
            Event.addRoute "health_check", Event.addRoute "api_index"],
           Except.ok
             { config := some cfg
               dbInitDone := true
               routes := people ++ [indexRule, healthRule, apiIndexRule] })

/-- Werkzeug URL dispatch on the assembled rule list: the first rule whose
path matches and whose methods allow the request method receives the
request (identical static rules keep registration order under the stable
sort of the map, so the earlier one wins). -/
def dispatch : List Rule → String → Method → Option Endpoint
  | [], _, _ => none
  | r :: rest, path, m =>
      if r.path = path ∧ m ∈ r.methods then some r.endpoint
      else dispatch rest path m

/-- A concrete configuration registry used to evaluate the factory. -/
def demoRegistry : List (String × Config) :=
  [("development", "DevelopmentConfig"), ("production", "ProductionConfig")]

/-- The factory evaluated on the demo registry with a healthy database and
an empty people blueprint. -/
def demoBoot : List Event × Except BootError FlaskApp :=
  create_app demoRegistry (Except.ok ()) [] "development"

/-- The application object demoBoot assembles. -/
def demoAppVal : FlaskApp :=
  { config := some "DevelopmentConfig"
    dbInitDone := true
    routes := [indexRule, healthRule, apiIndexRule] }

/-- The route table of the application demoBoot assembles. -/
def demoRoutes : List Rule :=
  match demoBoot.2 with
  | Except.ok a => a.routes
  | Except.error _ => []

/-- A concrete database state used to evaluate the handlers. -/
def demoDb : DbState :=
  { rows := ["passenger-1", "passenger-2"], queryLog := [] }

/-- C2: for every GET /health request in which the SELECT 1 probe
succeeds, health_check returns HTTP 200 with body exactly the JSON object
with fields status healthy, database connected, service titanic-api. -/
theorem health_check_ok_response (app : FlaskApp) (st : DbState) :
    (health_check (Except.ok ()) app st).1 =
      { body := Body.json (Json.obj
          [("status", Json.str "healthy"),
           ("database", Json.str "connected"),
           ("service", Json.str "titanic-api")])
        status := 200 } := rfl

/-- C3: for every exception e raised by the probe, health_check catches it
and returns HTTP 503 with status unhealthy, database disconnected and the
stringified exception in the error field; the probe is executed exactly
once (the query log grows by one SELECT 1 entry), so it is not retried. -/
theorem health_check_error_response (e : String) (app : FlaskApp) (st : DbState) :
    (health_check (Except.error e) app st).1 =
      { body := Body.json (Json.obj
          [("status", Json.str "unhealthy"),
           ("database", Json.str "disconnected"),
           ("error", Json.str e)])
        status := 503 } ∧
    (health_check (Except.error e) app st).2.2.queryLog =
      st.queryLog ++ ["SELECT 1"] :=
  ⟨rfl, rfl⟩

/-- C4 counterexample: the claim says the error field of the 503 body is a
non-empty string for every exception, but the handler stores str(e)
verbatim, so an exception whose string form is empty (in Python, for
instance Exception()) yields an empty error field. -/
theorem health_check_empty_error_cex :
    (health_check (Except.error "") demoAppVal demoDb).1.status = 503 ∧
    (health_check (Except.error "") demoAppVal demoDb).1.fieldStr "status" =
      some "unhealthy" ∧
    (health_check (Except.error "") demoAppVal demoDb).1.fieldStr "error" =
      some "" := by
  refine ⟨rfl, ?_, ?_⟩ <;> decide

/-- C4 (amended): for every probe exception the 503 body carries status
unhealthy and an error field equal to the stringified exception, which is
non-empty whenever the string form of the exception is non-empty. -/
theorem health_check_error_field (e : String) (app : FlaskApp) (st : DbState)
    (he : e ≠ "") :
    (health_check (Except.error e) app st).1.status = 503 ∧
    (health_check (Except.error e) app st).1.fieldStr "status" =
      some "unhealthy" ∧
    (health_check (Except.error e) app st).1.fieldStr "error" = some e ∧
    e ≠ "" :=
  ⟨rfl, rfl, rfl, he⟩

/-- Witness for C4 (amended) at a concrete non-empty exception string. -/
theorem health_check_error_field_witness :
    (health_check (Except.error "connection refused") demoAppVal demoDb).1.status
      = 503 ∧
    (health_check (Except.error "connection refused") demoAppVal
        demoDb).1.fieldStr "status" = some "unhealthy" ∧
    (health_check (Except.error "connection refused") demoAppVal
        demoDb).1.fieldStr "error" = some "connection refused" ∧
    "connection refused" ≠ "" :=
  health_check_error_field "connection refused" demoAppVal demoDb (by decide)

/-- C8: a GET /health request has no side effect beyond issuing the
read-only SELECT 1 probe: on both branches the application object (hence
its configuration and routes) is returned unchanged, the database rows
are unchanged, and the only state change is the single probe appended to
the query log. -/
theorem health_check_frame (probe : Except String Unit) (app : FlaskApp)
    (st : DbState) :
    (health_check probe app st).2.1 = app ∧
    (health_check probe app st).2.1.config = app.config ∧
    (health_check probe app st).2.2.rows = st.rows ∧
    (health_check probe app st).2.2.queryLog = st.queryLog ++ ["SELECT 1"] := by
  cases probe <;> exact ⟨rfl, rfl, rfl, rfl⟩

/-- C9: health_check is total over its inputs and never propagates an
exception: every request produces exactly one of the two payload shapes,
healthy with 200 or unhealthy with 503, and the status is 200 exactly when
the status field of the body is healthy. -/
theorem health_check_dichotomy (probe : Except String Unit) (app : FlaskApp)
    (st : DbState) :
    ((health_check probe app st).1.status = 200 ∨
     (health_check probe app st).1.status = 503) ∧
    ((health_check probe app st).1.status = 200 ↔
     (health_check probe app st).1.fieldStr "status" = some "healthy") ∧
    ((health_check probe app st).1 =
        { body := Body.json (Json.obj
            [("status", Json.str "healthy"),
             ("database", Json.str "connected"),
             ("service", Json.str "titanic-api")])
          status := 200 } ∨
     ∃ e, probe = Except.error e ∧
       (health_check probe app st).1 =
         { body := Body.json (Json.obj
             [("status", Json.str "unhealthy"),
              ("database", Json.str "disconnected"),
              ("error", Json.str e)])
           status := 503 }) := by
  cases probe with
  | ok u =>
      exact ⟨Or.inl rfl, ⟨fun _ => rfl, fun _ => rfl⟩, Or.inl rfl⟩
  | error e =>
      have h1 : ¬ ((503 : Nat) = 200) := by decide
      have h2 : ¬ ((some "unhealthy" : Option String) = some "healthy") := by
        decide
      exact ⟨Or.inr rfl, ⟨fun h => absurd h h1, fun h => absurd h h2⟩,
        Or.inr ⟨e, rfl, rfl⟩⟩

/-- C5: for every env_name present in the configuration registry, and a
database-init collaborator that does not fail, create_app returns (without
raising) the fully wired application: configuration applied, database
handle initialized, blueprint rules mounted, the three local routes
registered in source order. -/
theorem create_app_ok (registry : List (String × Config)) (people : List Rule)
    (env_name : String) (cfg : Config)
    (h : lookupConfig registry env_name = some cfg) :
    (create_app registry (Except.ok ()) people env_name).2 =
      Except.ok
        { config := some cfg
          dbInitDone := true
          routes := people ++ [indexRule, healthRule, apiIndexRule] } := by
  simp [create_app, h]

/-- Witness for C5 on the demo registry. -/
theorem create_app_ok_witness :
    (create_app demoRegistry (Except.ok ()) [] "development").2 =
      Except.ok
        { config := some "DevelopmentConfig"
          dbInitDone := true
          routes := [] ++ [indexRule, healthRule, apiIndexRule] } :=
  create_app_ok demoRegistry [] "development" "DevelopmentConfig" rfl

/-- C6: for every env_name absent from the configuration registry,
create_app propagates the lookup-failure error of app_config uncaught,
whatever the database collaborator and the blueprint would have done. -/
theorem create_app_missing_env (registry : List (String × Config))
    (dbInit : Except String Unit) (people : List Rule) (env_name : String)
    (h : lookupConfig registry env_name = none) :
    (create_app registry dbInit people env_name).2 =
      Except.error (BootError.keyError env_name) := by
  simp [create_app, h]

/-- Witness for C6 at an environment name the demo registry lacks. -/
theorem create_app_missing_env_witness :
    (create_app demoRegistry (Except.ok ()) [] "staging").2 =
      Except.error (BootError.keyError "staging") :=
  create_app_missing_env demoRegistry (Except.ok ()) [] "staging" rfl

/-- C7: on a successful bootstrap the observable effects happen in source
order: application creation, configuration, database initialization,
blueprint registration, then the registration of index, health_check and
api_index, and finally the assembled application object is returned. -/
theorem create_app_effect_order (registry : List (String × Config))
    (people : List Rule) (env_name : String) (cfg : Config)
    (h : lookupConfig registry env_name = some cfg) :
    (create_app registry (Except.ok ()) people env_name).1 =
      [Event.createApp, Event.applyConfig cfg, Event.initDb,
       Event.registerBlueprint, Event.addRoute "index",
       Event.addRoute "health_check", Event.addRoute "api_index"] ∧
    ∃ app, (create_app registry (Except.ok ()) people env_name).2 =
      Except.ok app := by
  refine ⟨by simp [create_app, h], ?_⟩
  exact ⟨{ config := some cfg
           dbInitDone := true
           routes := people ++ [indexRule, healthRule, apiIndexRule] },
         by simp [create_app, h]⟩

/-- Witness for C7 on the demo registry. -/
theorem create_app_effect_order_witness :
    (create_app demoRegistry (Except.ok ()) [] "development").1 =
      [Event.createApp, Event.applyConfig "DevelopmentConfig", Event.initDb,
       Event.registerBlueprint, Event.addRoute "index",
       Event.addRoute "health_check", Event.addRoute "api_index"] ∧
    ∃ app, (create_app demoRegistry (Except.ok ()) [] "development").2 =
      Except.ok app :=
  create_app_effect_order demoRegistry [] "development" "DevelopmentConfig" rfl

/-- C10: when the configuration lookup fails, create_app raises at that
point: the trace shows only the application creation, so the database is
never initialized, the blueprint never registered, no route ever added,
and no application object is produced. -/
theorem create_app_fails_before_wiring (registry : List (String × Config))
    (dbInit : Except String Unit) (people : List Rule) (env_name : String)
    (h : lookupConfig registry env_name = none) :
    (create_app registry dbInit people env_name).1 = [Event.createApp] ∧
    Event.initDb ∉ (create_app registry dbInit people env_name).1 ∧
    Event.registerBlueprint ∉ (create_app registry dbInit people env_name).1 ∧
    (∀ n, Event.addRoute n ∉ (create_app registry dbInit people env_name).1) ∧
    (create_app registry dbInit people env_name).2 =
      Except.error (BootError.keyError env_name) := by
  simp [create_app, h]

/-- Witness for C10 at an environment name the demo registry lacks. -/
theorem create_app_fails_before_wiring_witness :
    (create_app demoRegistry (Except.ok ()) [] "testing").1 =
      [Event.createApp] ∧
    Event.initDb ∉ (create_app demoRegistry (Except.ok ()) [] "testing").1 ∧
    Event.registerBlueprint ∉
      (create_app demoRegistry (Except.ok ()) [] "testing").1 ∧
    (∀ n, Event.addRoute n ∉
      (create_app demoRegistry (Except.ok ()) [] "testing").1) ∧
    (create_app demoRegistry (Except.ok ()) [] "testing").2 =
      Except.error (BootError.keyError "testing") :=
  create_app_fails_before_wiring demoRegistry (Except.ok ()) [] "testing" rfl

/-- Dispatch skips a block of rules none of which matches the request. -/
theorem dispatch_append_no_match (rules extra : List Rule) (path : String)
    (m : Method) (h : ∀ r ∈ rules, ¬(r.path = path ∧ m ∈ r.methods)) :
    dispatch (rules ++ extra) path m = dispatch extra path m := by
  induction rules with
  | nil => rfl
  | cons r rest ih =>
      simp only [List.cons_append, dispatch]
      rw [if_neg (h r (List.mem_cons_self r rest))]
      exact ih fun q hq => h q (List.mem_cons_of_mem r hq)

/-- C1 counterexample: on the concrete application assembled by demoBoot,
Werkzeug dispatch sends GET / to the first-registered endpoint index, not
to api_index, and the response of index is the plain welcome text, not a
JSON body; so GET / does not reach the structured JSON payload. -/
theorem root_dispatch_cex :
    dispatch demoRoutes "/" Method.GET = some Endpoint.index ∧
    some Endpoint.index ≠ some Endpoint.api_index ∧
    index.isJsonBody = false ∧
    api_index.isJsonBody = true := by
  refine ⟨by decide, by decide, rfl, rfl⟩

/-- C1 (amended): for every application returned by create_app whose
blueprint claims no GET rule for the root path, a GET request to path /
is dispatched to the FIRST-registered root handler index, so the response
is the plain-text welcome string with status 200; the second-registered
handler api_index is shadowed and unreachable on this path. -/
theorem root_dispatches_to_index (registry : List (String × Config))
    (people : List Rule) (env_name : String) (cfg : Config) (app : FlaskApp)
    (hcfg : lookupConfig registry env_name = some cfg)
    (hbp : ∀ r ∈ people, ¬(r.path = "/" ∧ Method.GET ∈ r.methods))
    (happ : (create_app registry (Except.ok ()) people env_name).2 =
      Except.ok app) :
    dispatch app.routes "/" Method.GET = some Endpoint.index ∧
    index.status = 200 ∧
    index.body = Body.text "\n        Welcome to the Titanic API\n        " := by
  have hroutes : app.routes = people ++ [indexRule, healthRule, apiIndexRule] := by
    simp [create_app, hcfg] at happ
    rw [← happ]
  refine ⟨?_, rfl, rfl⟩
  rw [hroutes, dispatch_append_no_match people _ "/" Method.GET hbp]
  decide

/-- Witness for C1 (amended) on the demo registry with an empty blueprint. -/
theorem root_dispatches_to_index_witness :
    dispatch demoAppVal.routes "/" Method.GET = some Endpoint.index ∧
    index.status = 200 ∧
    index.body = Body.text "\n        Welcome to the Titanic API\n        " :=
  root_dispatches_to_index demoRegistry [] "development" "DevelopmentConfig"
    demoAppVal rfl (by decide) rfl

end TitanicApi
